import Mathlib

/-!
Verification of the case-based-reasoning veterinary-clinic engine
(`klinik.py`).  Shallow embedding: Python floats are modelled as exact
rationals (`ℚ`), Python lists as `List`, `set(...)` as `Finset` via
`List.toFinset`, dictionaries with fixed literal keys as Lean structures,
and exceptions / Streamlit error reports as explicit outcome values.
The in-memory store `BasisKasus.kasus_list` is passed explicitly as a
`List Kasus` argument and returned where the Python method mutates it.
-/

namespace Klinik

/-- A clinical case record (`class Kasus`, klinik.py lines 34-44). -/
structure Kasus where
  id_kasus : String
  nama_hewan : String
  ras : String
  umur : ℚ
  berat : ℚ
  riwayat_medis : String
  gejala : List String
  solusi : String
deriving DecidableEq

/-- The dictionary produced by `Kasus.ke_dict` (klinik.py lines 46-56):
a mapping with exactly the eight record fields as keys, modelled as a
structure with one field per literal key. -/
structure KasusDict where
  id_kasus : String
  nama_hewan : String
  ras : String
  umur : ℚ
  berat : ℚ
  riwayat_medis : String
  gejala : List String
  solusi : String
deriving DecidableEq

/-- Encoder `Kasus.ke_dict` (klinik.py lines 46-56). -/
def Kasus.ke_dict (k : Kasus) : KasusDict :=
  { id_kasus := k.id_kasus
    nama_hewan := k.nama_hewan
    ras := k.ras
    umur := k.umur
    berat := k.berat
    riwayat_medis := k.riwayat_medis
    gejala := k.gejala
    solusi := k.solusi }

/-- Decoder `Kasus.dari_dict` (klinik.py lines 58-69): reads each of the
eight keys back out of the mapping. -/
def Kasus.dari_dict (data : KasusDict) : Kasus :=
  { id_kasus := data.id_kasus
    nama_hewan := data.nama_hewan
    ras := data.ras
    umur := data.umur
    berat := data.berat
    riwayat_medis := data.riwayat_medis
    gejala := data.gejala
    solusi := data.solusi }

/-- Python's `str.lower`: every character lowercased (character-wise,
as CPython does for ASCII clinic data). -/
def pyLower (s : String) : String :=
  String.mk (s.data.map Char.toLower)

/-- Python's `str.strip`: leading and trailing whitespace removed. -/
def pyStrip (s : String) : String :=
  String.mk (((s.data.dropWhile Char.isWhitespace).reverse.dropWhile
    Char.isWhitespace).reverse)

/-- Jaccard similarity `Similaritas.jaccard_similarity` (klinik.py lines
162-168): `set(gejala1)`, `set(gejala2)`, then
`intersection / union if union != 0 else 0`. -/
def Similaritas.jaccard_similarity (gejala1 gejala2 : List String) : ℚ :=
  let set1 := gejala1.toFinset
  let set2 := gejala2.toFinset
  let intersection := (set1 ∩ set2).card
  let union := (set1 ∪ set2).card
  if union ≠ 0 then (intersection : ℚ) / (union : ℚ) else 0

/-- Composite score `Similaritas.attribute_similarity` (klinik.py lines
170-178).  Python's `max(a, b, 1)` is `max (max a b) 1`; the float
literals 0.4/0.2/0.1 and the partial credits 0.5/0.3 are exact in ℚ. -/
def Similaritas.attribute_similarity (kasus1 kasus2 : Kasus) : ℚ :=
  let umur_sim := 1 - |kasus1.umur - kasus2.umur| / max (max kasus1.umur kasus2.umur) 1
  let berat_sim := 1 - |kasus1.berat - kasus2.berat| / max (max kasus1.berat kasus2.berat) 1
  let animal_sim : ℚ := if pyLower kasus1.nama_hewan = pyLower kasus2.nama_hewan then 1 else 0.5
  let riwayat_sim : ℚ := if pyLower kasus1.riwayat_medis = pyLower kasus2.riwayat_medis then 1 else 0.3
  0.4 * Similaritas.jaccard_similarity kasus1.gejala kasus2.gejala +
    0.2 * umur_sim + 0.2 * berat_sim +
    0.1 * animal_sim + 0.1 * riwayat_sim

/-- One CSV row as `muatan_dari_csv` reads it (klinik.py lines 105-126).
Each field is the result of the corresponding cell access: `none` for a
required column means the column is absent from the table (Python raises
`KeyError`); for `age`/`weight_kg` it also covers an unconvertible cell
(`float` raises `ValueError`); for a symptom cell `none` means the column
is absent or the cell is NA (the `kol in row and pd.notna(row[kol])`
guard fails).  Numeric cells carry their float value as an exact ℚ. -/
structure CsvRow where
  animalName : Option String
  breed : Option String
  age : Option ℚ
  weight_kg : Option ℚ
  medicalHistory : Option String
  symptom1 : Option String
  symptom2 : Option String
  symptom3 : Option String
  symptom4 : Option String
  symptom5 : Option String
deriving DecidableEq

/-- A CSV source as seen by `muatan_dari_csv` (klinik.py lines 80-89):
the path may be missing (`os.path.exists` fails), `pd.read_csv` may
raise, or a table of rows is obtained. -/
inductive CsvSource where
  | missing
  | parseError
  | table (rows : List CsvRow)
deriving DecidableEq

/-- A Python exception escaping the import loop. -/
inductive PyErr where
  | keyError (col : String)
deriving DecidableEq

/-- Outcome of an import call: an error reported via `st.error` followed
by an early return, an uncaught exception, or success (`st.success`). -/
inductive ImportOutcome where
  | errorReported
  | raised (e : PyErr)
  | success
deriving DecidableEq

/-- Symptom extraction for one row (klinik.py lines 106-109): for each of
the five symptom columns, if the cell is present and its stripped text is
non-empty, append the stripped, lowercased text. -/
def buildGejala (r : CsvRow) : List String :=
  [r.symptom1, r.symptom2, r.symptom3, r.symptom4, r.symptom5].filterMap
    (fun cell => match cell with
      | none => none
      | some s => if pyStrip s = "" then none else some (pyLower (pyStrip s)))

/-- Python's `str.capitalize`: first character uppercased, the rest
lowercased (used on the disease keys, klinik.py line 114). -/
def pyCapitalize (s : String) : String :=
  match s.data with
  | [] => ""
  | c :: cs => String.mk (c.toUpper :: cs.map Char.toLower)

/-- The diagnosis lookup table `peta_diagnosa` after the lowercase
normalisation of klinik.py line 103, in Python dict insertion order
(klinik.py lines 92-99). -/
def peta_diagnosa : List (String × List String) :=
  [("rabies", ["hydrophobia", "shyness or aggression", "drooping ears"]),
   ("kennel cough", ["coughing", "sneezing", "lethargy"]),
   ("parvovirus", ["vomiting", "diarrhea", "lethargy", "weight loss"]),
   ("feline leukemia", ["weight loss", "anorexia", "fever"]),
   ("skin infection", ["itchiness", "hair loss", "redness"]),
   ("parasites", ["weight loss", "diarrhea", "scratching"])]

/-- Diagnosis derivation (klinik.py lines 111-115): the first disease
whose signature has any symptom among the row's symptoms wins; otherwise
the fallback label. -/
def deriveDiagnosa (gejala : List String) : String :=
  match peta_diagnosa.find? (fun entry => entry.2.any (fun sym => gejala.contains sym)) with
  | some entry => pyCapitalize entry.1 ++ " - Antibiotik + Perawatan pendukung"
  | none => "Diagnosa tidak diketahui"

/-- Construction of the `Kasus` for row `idx` (klinik.py lines 117-126):
required-column accesses are evaluated in source order and raise
`KeyError` when the column is absent. -/
def rowToKasus (idx : ℕ) (r : CsvRow) : Except PyErr Kasus :=
  let gejala := buildGejala r
  let solusi := deriveDiagnosa gejala
  match r.animalName with
  | none => .error (.keyError "AnimalName")
  | some nama => match r.breed with
    | none => .error (.keyError "Breed")
    | some ras => match r.age with
      | none => .error (.keyError "Age")
      | some umur => match r.weight_kg with
        | none => .error (.keyError "Weight_kg")
        | some berat => match r.medicalHistory with
          | none => .error (.keyError "MedicalHistory")
          | some riwayat =>
            .ok { id_kasus := "K" ++ toString (idx + 1)
                  nama_hewan := nama
                  ras := ras
                  umur := umur
                  berat := berat
                  riwayat_medis := riwayat
                  gejala := gejala
                  solusi := solusi }

/-- The row loop of `muatan_dari_csv` (klinik.py lines 105-127), started
on the freshly cleared list: appends the case built from each row; an
exception leaves the partially filled list in place and propagates. -/
def muatanRows : ℕ → List CsvRow → List Kasus → List Kasus × ImportOutcome
  | _, [], acc => (acc, .success)
  | idx, r :: rs, acc =>
    match rowToKasus idx r with
    | .error e => (acc, .raised e)
    | .ok kasus => muatanRows (idx + 1) rs (acc ++ [kasus])

namespace BasisKasus

/-- CSV import `BasisKasus.muatan_dari_csv` (klinik.py lines 78-130).
The missing-path and read-failure branches report an error and return
with `kasus_list` untouched; otherwise line 90 executes
`self.kasus_list = []` and the loop refills the list from the rows.
On success the store is persisted (`simpan_kasus`, modelled separately)
and a success message shown.  Returns the final `kasus_list` together
with the outcome. -/
def muatan_dari_csv (src : CsvSource) (kasus_list : List Kasus) :
    List Kasus × ImportOutcome :=
  match src with
  | .missing => (kasus_list, .errorReported)
  | .parseError => (kasus_list, .errorReported)
  | .table rows => muatanRows 0 rows []

/-- Append one case, `BasisKasus.tambah_kasus` (klinik.py lines 132-134);
the subsequent `simpan_kasus` call does not change `kasus_list`. -/
def tambah_kasus (kasus_list : List Kasus) (kasus : Kasus) : List Kasus :=
  kasus_list ++ [kasus]

end BasisKasus

/-- The durable JSON file as `muatan_kasus` can observe it (klinik.py
lines 139-151): the file may be absent; `json.load` may raise
`JSONDecodeError`; opening/decoding may fail with any other exception
(for instance a record mapping that lacks a required key, making
`Kasus.dari_dict` raise `KeyError`, caught by the outer handler); or a
list of record mappings is obtained. -/
inductive DurableFile where
  | absent
  | malformed
  | otherError (msg : String)
  | ok (items : List KasusDict)
deriving DecidableEq

/-- The symptom re-normalisation applied to every loaded case (klinik.py
lines 153-155): each token is lowercased (and nothing else). -/
def normalizeKasus (kasus : Kasus) : Kasus :=
  { kasus with gejala := kasus.gejala.map pyLower }

/-- Success or failure of the underlying durable write performed by
`json.dump` inside `BasisKasus.simpan_kasus`. -/
inductive WriteOutcome where
  | ok
  | fail (msg : String)
deriving DecidableEq

namespace BasisKasus

/-- Loader `BasisKasus.muatan_kasus` (klinik.py lines 139-155), taking
the prior `kasus_list` (always `[]` at the only call site, `__init__`).
Absent file: the list is left as it was.  `JSONDecodeError`: the list is
silently reset to empty (no warning).  Any other exception: `st.warning`
is shown and the list reset to empty.  Otherwise the decoded records
replace the list.  In every branch the final lowercase re-normalisation
loop runs.  Returns the resulting list and the warning, if any. -/
def muatan_kasus (file : DurableFile) (kasus_list : List Kasus) :
    List Kasus × Option String :=
  let loaded : List Kasus × Option String :=
    match file with
    | .absent => (kasus_list, none)
    | .malformed => ([], none)
    | .otherError msg => ([], some ("File JSON tidak valid: " ++ msg))
    | .ok items => (items.map Kasus.dari_dict, none)
  (loaded.1.map normalizeKasus, loaded.2)

/-- Writer `BasisKasus.simpan_kasus` (klinik.py lines 157-159): dumps the
encoded store to the file.  The method installs no exception handler, so
a failing write propagates to the caller; a successful write produces the
encoded record list as the new durable content. -/
def simpan_kasus (kasus_list : List Kasus) (w : WriteOutcome) :
    Except String (List KasusDict) :=
  match w with
  | .ok => .ok (kasus_list.map Kasus.ke_dict)
  | .fail msg => .error msg

end BasisKasus

/-- Descending comparison on scored cases used to model
`similarity_scores.sort(key=lambda x: x[1], reverse=True)` (klinik.py
line 191): Python's sort is stable, and with `reverse=True` it places
`x` before `y` exactly when `x`'s key is not below `y`'s, keeping the
original order on ties — which is `List.mergeSort` with this
comparator. -/
def leScore (x y : Kasus × ℚ) : Bool := decide (y.2 ≤ x.2)

namespace CBR

/-- Retrieval `CBR.ambil_kasus_terdekat` (klinik.py lines 184-192) over
the store `kasus_list` of the engine's `basis_kasus`. -/
def ambil_kasus_terdekat (kasus_list : List Kasus) (kasus_baru : Kasus)
    (top_k : ℕ) : List Kasus :=
  if kasus_list = [] then []
  else
    let similarity_scores := kasus_list.map
      (fun kasus => (kasus, Similaritas.attribute_similarity kasus_baru kasus))
    ((similarity_scores.mergeSort leScore).take top_k).map (fun x => x.1)

/-- Reuse `CBR.gunakan_solusi` (klinik.py lines 194-197). -/
def gunakan_solusi (kasus_terambil : List Kasus) : String :=
  match kasus_terambil with
  | [] => "Tidak ditemukan kasus serupa"
  | k :: _ => k.solusi

/-- Retain `CBR.simpan_kasus_baru` (klinik.py lines 199-202): set the
solution, assign id `"K" ++ (store size + 1)`, append via
`tambah_kasus`.  Returns the new `kasus_list`. -/
def simpan_kasus_baru (kasus_list : List Kasus) (kasus_baru : Kasus)
    (solusi : String) : List Kasus :=
  let kasus := { kasus_baru with
    solusi := solusi
    id_kasus := "K" ++ toString (kasus_list.length + 1) }
  BasisKasus.tambah_kasus kasus_list kasus

end CBR

/-- Modelled from the spec (retrieval ordering, spec section 4.4): the
scored candidates, stable-sorted in non-increasing score order with ties
broken by the candidate's original index in the store, then truncated to
`k`.  `List.enumLE leScore` prefers the strictly higher score and, when
the scores are equivalent, the smaller original index. -/
def retrieveSpec (kasus_list : List Kasus) (q : Kasus) (k : ℕ) : List Kasus :=
  let scored := kasus_list.map (fun c => (c, Similaritas.attribute_similarity q c))
  (((scored.enum).mergeSort (List.enumLE leScore)).take k).map (fun x => x.2.1)

/-! ### Helper lemmas about the similarity model -/

theorem jaccard_comm (a b : List String) :
    Similaritas.jaccard_similarity a b = Similaritas.jaccard_similarity b a := by
  simp [Similaritas.jaccard_similarity, Finset.inter_comm, Finset.union_comm]

theorem jaccard_nonneg (a b : List String) :
    0 ≤ Similaritas.jaccard_similarity a b := by
  simp only [Similaritas.jaccard_similarity]
  split
  · positivity
  · exact le_refl 0

theorem jaccard_le_one (a b : List String) :
    Similaritas.jaccard_similarity a b ≤ 1 := by
  simp only [Similaritas.jaccard_similarity]
  split
  · apply div_le_one_of_le₀
    · exact_mod_cast Finset.card_le_card (Finset.inter_subset_union)
    · positivity
  · exact zero_le_one

theorem jaccard_eq_one_of_eq (a b : List String)
    (h : a.toFinset = b.toFinset) (hne : a.toFinset.Nonempty) :
    Similaritas.jaccard_similarity a b = 1 := by
  simp only [Similaritas.jaccard_similarity, ← h, Finset.inter_self, Finset.union_self]
  have hc : a.toFinset.card ≠ 0 := Nat.pos_iff_ne_zero.mp (Finset.card_pos.mpr hne)
  rw [if_pos hc]
  exact div_self (by exact_mod_cast hc)

theorem jaccard_eq_zero_of_disjoint (a b : List String)
    (h : a.toFinset ∩ b.toFinset = ∅) :
    Similaritas.jaccard_similarity a b = 0 := by
  simp only [Similaritas.jaccard_similarity, h]
  split <;> simp

theorem jaccard_congr {a a' b b' : List String}
    (h1 : a.toFinset = a'.toFinset) (h2 : b.toFinset = b'.toFinset) :
    Similaritas.jaccard_similarity a b = Similaritas.jaccard_similarity a' b' := by
  simp [Similaritas.jaccard_similarity, h1, h2]

theorem numeric_sim_bounds (x y : ℚ) (hx : 0 ≤ x) (hy : 0 ≤ y) :
    0 ≤ 1 - |x - y| / max (max x y) 1 ∧ 1 - |x - y| / max (max x y) 1 ≤ 1 := by
  have hm : (1 : ℚ) ≤ max (max x y) 1 := le_max_right _ _
  have hm0 : (0 : ℚ) < max (max x y) 1 := lt_of_lt_of_le one_pos hm
  have habs : |x - y| ≤ max (max x y) 1 := by
    rw [abs_sub_le_iff]
    constructor
    · calc x - y ≤ x := by linarith
      _ ≤ max x y := le_max_left _ _
      _ ≤ max (max x y) 1 := le_max_left _ _
    · calc y - x ≤ y := by linarith
      _ ≤ max x y := le_max_right _ _
      _ ≤ max (max x y) 1 := le_max_left _ _
  have h1 : |x - y| / max (max x y) 1 ≤ 1 := div_le_one_of_le₀ habs (le_of_lt hm0)
  have h2 : 0 ≤ |x - y| / max (max x y) 1 := div_nonneg (abs_nonneg _) (le_of_lt hm0)
  constructor <;> linarith

theorem attribute_similarity_bounds (k1 k2 : Kasus)
    (hu1 : 0 ≤ k1.umur) (hu2 : 0 ≤ k2.umur)
    (hb1 : 0 ≤ k1.berat) (hb2 : 0 ≤ k2.berat) :
    0 ≤ Similaritas.attribute_similarity k1 k2 ∧
      Similaritas.attribute_similarity k1 k2 ≤ 1 := by
  obtain ⟨ha1, ha2⟩ := numeric_sim_bounds k1.umur k2.umur hu1 hu2
  obtain ⟨hc1, hc2⟩ := numeric_sim_bounds k1.berat k2.berat hb1 hb2
  have hj0 := jaccard_nonneg k1.gejala k2.gejala
  have hj1 := jaccard_le_one k1.gejala k2.gejala
  simp only [Similaritas.attribute_similarity]
  constructor <;> split_ifs <;> norm_num <;> linarith

theorem attribute_similarity_self (k : Kasus) (h : k.gejala ≠ []) :
    Similaritas.attribute_similarity k k = 1 := by
  have hne : k.gejala.toFinset.Nonempty := by
    rw [Finset.nonempty_iff_ne_empty]
    simpa [List.toFinset_eq_empty_iff] using h
  have hj : Similaritas.jaccard_similarity k.gejala k.gejala = 1 :=
    jaccard_eq_one_of_eq _ _ rfl hne
  simp only [Similaritas.attribute_similarity, hj, sub_self, abs_zero, zero_div,
    if_pos rfl]
  norm_num

theorem attribute_similarity_congr {q q' c c' : Kasus}
    (hqg : q.gejala.toFinset = q'.gejala.toFinset) (hqu : q.umur = q'.umur)
    (hqb : q.berat = q'.berat) (hqn : q.nama_hewan = q'.nama_hewan)
    (hqr : q.riwayat_medis = q'.riwayat_medis)
    (hcg : c.gejala.toFinset = c'.gejala.toFinset) (hcu : c.umur = c'.umur)
    (hcb : c.berat = c'.berat) (hcn : c.nama_hewan = c'.nama_hewan)
    (hcr : c.riwayat_medis = c'.riwayat_medis) :
    Similaritas.attribute_similarity q c = Similaritas.attribute_similarity q' c' := by
  simp only [Similaritas.attribute_similarity, jaccard_congr hqg hcg,
    hqu, hqb, hqn, hqr, hcu, hcb, hcn, hcr]

/-! ### Claim theorems on the similarity model -/

/-- C7: `jaccard_similarity` is the Jaccard index: it is symmetric,
always in [0,1], equals 1 for equal non-empty symptom sets, equals 0 for
disjoint sets (hence also when both are empty), and yields 1/3 on
`{vomiting, diarrhea}` versus `{diarrhea, lethargy}`. -/
theorem jaccard_spec_props :
    (∀ a b : List String,
      Similaritas.jaccard_similarity a b = Similaritas.jaccard_similarity b a) ∧
    (∀ a b : List String,
      0 ≤ Similaritas.jaccard_similarity a b ∧ Similaritas.jaccard_similarity a b ≤ 1) ∧
    (∀ a b : List String, a.toFinset = b.toFinset → a.toFinset.Nonempty →
      Similaritas.jaccard_similarity a b = 1) ∧
    (∀ a b : List String, a.toFinset ∩ b.toFinset = ∅ →
      Similaritas.jaccard_similarity a b = 0) ∧
    Similaritas.jaccard_similarity ["vomiting", "diarrhea"] ["diarrhea", "lethargy"] = 1/3 :=
  ⟨jaccard_comm,
   fun a b => ⟨jaccard_nonneg a b, jaccard_le_one a b⟩,
   jaccard_eq_one_of_eq,
   jaccard_eq_zero_of_disjoint,
   by
    have hi : (["vomiting", "diarrhea"].toFinset ∩ ["diarrhea", "lethargy"].toFinset).card = 1 := by
      decide
    have hu : (["vomiting", "diarrhea"].toFinset ∪ ["diarrhea", "lethargy"].toFinset).card = 3 := by
      decide
    rw [Similaritas.jaccard_similarity]
    simp [hi, hu]⟩

/-- Witness for C7 at concrete inputs. -/
theorem jaccard_spec_props_witness :
    Similaritas.jaccard_similarity ["fever", "coughing"] ["coughing", "fever", "fever"] = 1 ∧
    Similaritas.jaccard_similarity ["fever"] ["coughing"] = 0 :=
  ⟨jaccard_spec_props.2.2.1 ["fever", "coughing"] ["coughing", "fever", "fever"]
      (by decide) (by decide),
   jaccard_spec_props.2.2.2.1 ["fever"] ["coughing"] (by decide)⟩

/-- C3 (amended): for records with non-negative age and weight the
composite score lies in [0,1]; comparing a record with at least one
symptom token to itself yields exactly 1. -/
theorem composite_score_bounds_and_self :
    (∀ k1 k2 : Kasus, 0 ≤ k1.umur → 0 ≤ k2.umur → 0 ≤ k1.berat → 0 ≤ k2.berat →
      0 ≤ Similaritas.attribute_similarity k1 k2 ∧
        Similaritas.attribute_similarity k1 k2 ≤ 1) ∧
    (∀ k : Kasus, k.gejala ≠ [] → Similaritas.attribute_similarity k k = 1) :=
  ⟨fun k1 k2 hu1 hu2 hb1 hb2 => attribute_similarity_bounds k1 k2 hu1 hu2 hb1 hb2,
   attribute_similarity_self⟩

/-- Witness for C3 at concrete records. -/
theorem composite_score_bounds_and_self_witness :
    (0 ≤ Similaritas.attribute_similarity
        ⟨"K1", "Anjing", "Labrador", 2, 20, "Sehat", ["vomiting"], "s"⟩
        ⟨"K2", "Kucing", "Persia", 3, 4, "Sehat", ["fever"], "t"⟩ ∧
      Similaritas.attribute_similarity
        ⟨"K1", "Anjing", "Labrador", 2, 20, "Sehat", ["vomiting"], "s"⟩
        ⟨"K2", "Kucing", "Persia", 3, 4, "Sehat", ["fever"], "t"⟩ ≤ 1) ∧
    Similaritas.attribute_similarity
        ⟨"K1", "Anjing", "Labrador", 2, 20, "Sehat", ["vomiting"], "s"⟩
        ⟨"K1", "Anjing", "Labrador", 2, 20, "Sehat", ["vomiting"], "s"⟩ = 1 :=
  ⟨composite_score_bounds_and_self.1
      ⟨"K1", "Anjing", "Labrador", 2, 20, "Sehat", ["vomiting"], "s"⟩
      ⟨"K2", "Kucing", "Persia", 3, 4, "Sehat", ["fever"], "t"⟩
      (by norm_num) (by norm_num) (by norm_num) (by norm_num),
   composite_score_bounds_and_self.2
      ⟨"K1", "Anjing", "Labrador", 2, 20, "Sehat", ["vomiting"], "s"⟩
      (by decide)⟩

/-- C3 counterexample: a record whose symptom list is empty is a valid
record (age and weight non-negative), yet its composite score against
itself is 3/5, not 1 — the Jaccard component is 0 by the empty-union
convention. -/
theorem composite_score_self_empty_cx :
    Similaritas.attribute_similarity
        ⟨"BARU", "Anjing", "Tidak diketahui", 2, 5, "Tidak ada", [], ""⟩
        ⟨"BARU", "Anjing", "Tidak diketahui", 2, 5, "Tidak ada", [], ""⟩ = 3/5 ∧
      (3/5 : ℚ) ≠ 1 := by
  constructor
  · rw [Similaritas.attribute_similarity, Similaritas.jaccard_similarity]
    norm_num
  · norm_num

/-- C10: the composite score reads only the symptom token set (order and
multiplicity are irrelevant), age, weight, species name and medical
history of each record; the id, breed and solution fields never influence
it, and retrieval returns identical rankings for queries that differ only
in those fields — in particular breed never influences retrieval. -/
theorem score_only_reads_symptoms_age_weight_species_history
    (q q' c c' : Kasus)
    (hqg : q.gejala.toFinset = q'.gejala.toFinset) (hqu : q.umur = q'.umur)
    (hqb : q.berat = q'.berat) (hqn : q.nama_hewan = q'.nama_hewan)
    (hqr : q.riwayat_medis = q'.riwayat_medis)
    (hcg : c.gejala.toFinset = c'.gejala.toFinset) (hcu : c.umur = c'.umur)
    (hcb : c.berat = c'.berat) (hcn : c.nama_hewan = c'.nama_hewan)
    (hcr : c.riwayat_medis = c'.riwayat_medis) :
    Similaritas.attribute_similarity q c = Similaritas.attribute_similarity q' c' ∧
    ∀ (kasus_list : List Kasus) (top_k : ℕ),
      CBR.ambil_kasus_terdekat kasus_list q top_k
        = CBR.ambil_kasus_terdekat kasus_list q' top_k := by
  have hscore : ∀ kasus : Kasus,
      Similaritas.attribute_similarity q kasus
        = Similaritas.attribute_similarity q' kasus :=
    fun kasus => attribute_similarity_congr hqg hqu hqb hqn hqr rfl rfl rfl rfl rfl
  refine ⟨attribute_similarity_congr hqg hqu hqb hqn hqr hcg hcu hcb hcn hcr, ?_⟩
  intro kasus_list top_k
  simp only [CBR.ambil_kasus_terdekat, hscore]

/-- Witness for C10: queries differing only in id, breed, solution and
symptom order/duplication get the same score and the same retrieval. -/
theorem score_only_reads_witness :
    Similaritas.attribute_similarity
        ⟨"K1", "Anjing", "Labrador", 2, 20, "Sehat", ["vomiting", "fever", "vomiting"], ""⟩
        ⟨"K9", "Kucing", "Persia", 3, 4, "Normal", ["fever"], "t"⟩
      = Similaritas.attribute_similarity
        ⟨"K2", "Anjing", "Poodle", 2, 20, "Sehat", ["fever", "vomiting"], "sol"⟩
        ⟨"K10", "Kucing", "Anggora", 3, 4, "Normal", ["fever"], "u"⟩ ∧
    CBR.ambil_kasus_terdekat [⟨"K9", "Kucing", "Persia", 3, 4, "Normal", ["fever"], "t"⟩]
        ⟨"K1", "Anjing", "Labrador", 2, 20, "Sehat", ["vomiting", "fever", "vomiting"], ""⟩ 3
      = CBR.ambil_kasus_terdekat [⟨"K9", "Kucing", "Persia", 3, 4, "Normal", ["fever"], "t"⟩]
        ⟨"K2", "Anjing", "Poodle", 2, 20, "Sehat", ["fever", "vomiting"], "sol"⟩ 3 := by
  have h := score_only_reads_symptoms_age_weight_species_history
    ⟨"K1", "Anjing", "Labrador", 2, 20, "Sehat", ["vomiting", "fever", "vomiting"], ""⟩
    ⟨"K2", "Anjing", "Poodle", 2, 20, "Sehat", ["fever", "vomiting"], "sol"⟩
    ⟨"K9", "Kucing", "Persia", 3, 4, "Normal", ["fever"], "t"⟩
    ⟨"K10", "Kucing", "Anggora", 3, 4, "Normal", ["fever"], "u"⟩
    (by decide) rfl rfl rfl rfl (by decide) rfl rfl rfl rfl
  exact ⟨h.1, h.2 [⟨"K9", "Kucing", "Persia", 3, 4, "Normal", ["fever"], "t"⟩] 3⟩

/-- C4: retrieval equals the spec-side stable descending sort (ties
broken by original store order) truncated to `top_k`; it returns exactly
`min top_k n` records (at most `top_k`, fewer only when the store is
smaller), their scores are non-increasing, and the empty store yields
the empty sequence. -/
theorem retrieve_top_k_props (kasus_list : List Kasus) (q : Kasus) (top_k : ℕ) :
    CBR.ambil_kasus_terdekat kasus_list q top_k = retrieveSpec kasus_list q top_k ∧
    (CBR.ambil_kasus_terdekat kasus_list q top_k).length = min top_k kasus_list.length ∧
    (CBR.ambil_kasus_terdekat kasus_list q top_k).Pairwise
      (fun a b => Similaritas.attribute_similarity q b ≤ Similaritas.attribute_similarity q a) ∧
    (kasus_list = [] → CBR.ambil_kasus_terdekat kasus_list q top_k = []) := by
  by_cases hnil : kasus_list = []
  · subst hnil
    refine ⟨?_, ?_, ?_, fun _ => rfl⟩ <;>
      simp [CBR.ambil_kasus_terdekat, retrieveSpec]
  · have htrans : ∀ a b c : Kasus × ℚ, leScore a b → leScore b c → leScore a c := by
      intro a b c hab hbc
      simp only [leScore, decide_eq_true_eq] at *
      exact le_trans hbc hab
    have htotal : ∀ a b : Kasus × ℚ, leScore a b || leScore b a := by
      intro a b
      simpa [leScore] using le_total b.2 a.2
    refine ⟨?_, ?_, ?_, fun h => absurd h hnil⟩
    · simp only [CBR.ambil_kasus_terdekat, retrieveSpec, if_neg hnil]
      rw [← @List.mergeSort_enum _ leScore]
      simp only [List.map_take, List.map_map]
      rfl
    · simp [CBR.ambil_kasus_terdekat, if_neg hnil]
    · simp only [CBR.ambil_kasus_terdekat, if_neg hnil]
      have hsorted := List.sorted_mergeSort htrans htotal
        (kasus_list.map (fun kasus => (kasus, Similaritas.attribute_similarity q kasus)))
      have htake := hsorted.sublist
        (List.take_sublist top_k
          ((kasus_list.map
            (fun kasus => (kasus, Similaritas.attribute_similarity q kasus))).mergeSort leScore))
      have hmem : ∀ p ∈ ((kasus_list.map
            (fun kasus => (kasus, Similaritas.attribute_similarity q kasus))).mergeSort
            leScore).take top_k,
          p.2 = Similaritas.attribute_similarity q p.1 := by
        intro p hp
        have hp2 : p ∈ kasus_list.map
            (fun kasus => (kasus, Similaritas.attribute_similarity q kasus)) :=
          List.mem_mergeSort.mp (List.mem_of_mem_take hp)
        obtain ⟨c, _, rfl⟩ := List.mem_map.mp hp2
        rfl
      rw [List.pairwise_map]
      refine htake.imp_of_mem ?_
      intro a b ha hb hab
      have h2 : b.2 ≤ a.2 := by simpa [leScore] using hab
      rw [hmem a ha, hmem b hb] at h2
      exact h2

/-- Witness for C4: the empty store yields `[]`, and a one-record store
with `top_k = 3` yields exactly one record. -/
theorem retrieve_top_k_props_witness :
    CBR.ambil_kasus_terdekat []
      ⟨"BARU", "Anjing", "Poodle", 2, 5, "Sehat", ["vomiting"], ""⟩ 3 = [] ∧
    (CBR.ambil_kasus_terdekat [⟨"K1", "Anjing", "Labrador", 2, 20, "Sehat", ["fever"], "s"⟩]
      ⟨"BARU", "Anjing", "Poodle", 2, 5, "Sehat", ["vomiting"], ""⟩ 3).length = min 3 1 :=
  ⟨(retrieve_top_k_props [] ⟨"BARU", "Anjing", "Poodle", 2, 5, "Sehat", ["vomiting"], ""⟩ 3).2.2.2
      rfl,
   (retrieve_top_k_props [⟨"K1", "Anjing", "Labrador", 2, 20, "Sehat", ["fever"], "s"⟩]
      ⟨"BARU", "Anjing", "Poodle", 2, 5, "Sehat", ["vomiting"], ""⟩ 3).2.1⟩

/-! ### Import, retain, persist and load claims -/

/-- A row of the tabular source is valid when it carries all five
required columns `AnimalName, Breed, Age, Weight_kg, MedicalHistory`. -/
def CsvRow.valid (r : CsvRow) : Prop :=
  r.animalName.isSome ∧ r.breed.isSome ∧ r.age.isSome ∧
    r.weight_kg.isSome ∧ r.medicalHistory.isSome

instance (r : CsvRow) : Decidable r.valid := by
  unfold CsvRow.valid
  infer_instance

/-- The record `muatan_dari_csv` builds from a valid row at index `idx`
(klinik.py lines 117-126). -/
def rowKasus (idx : ℕ) (r : CsvRow) : Kasus :=
  { id_kasus := "K" ++ toString (idx + 1)
    nama_hewan := r.animalName.getD ""
    ras := r.breed.getD ""
    umur := r.age.getD 0
    berat := r.weight_kg.getD 0
    riwayat_medis := r.medicalHistory.getD ""
    gejala := buildGejala r
    solusi := deriveDiagnosa (buildGejala r) }

theorem rowToKasus_of_valid (idx : ℕ) (r : CsvRow) (h : r.valid) :
    rowToKasus idx r = .ok (rowKasus idx r) := by
  obtain ⟨h1, h2, h3, h4, h5⟩ := h
  obtain ⟨nama, hn⟩ := Option.isSome_iff_exists.mp h1
  obtain ⟨ras, hr⟩ := Option.isSome_iff_exists.mp h2
  obtain ⟨umur, hu⟩ := Option.isSome_iff_exists.mp h3
  obtain ⟨berat, hb⟩ := Option.isSome_iff_exists.mp h4
  obtain ⟨riwayat, hm⟩ := Option.isSome_iff_exists.mp h5
  simp [rowToKasus, rowKasus, hn, hr, hu, hb, hm]

theorem muatanRows_of_valid :
    ∀ (rows : List CsvRow) (idx : ℕ) (acc : List Kasus),
      (∀ r ∈ rows, r.valid) →
      muatanRows idx rows acc
        = (acc ++ (rows.enumFrom idx).map (fun p => rowKasus p.1 p.2), .success)
  | [], idx, acc, _ => by simp [muatanRows]
  | r :: rs, idx, acc, h => by
    have hr := rowToKasus_of_valid idx r (h r (List.mem_cons_self r rs))
    have ih := muatanRows_of_valid rs (idx + 1) (acc ++ [rowKasus idx r])
      (fun x hx => h x (List.mem_cons_of_mem r hx))
    simp [muatanRows, hr, ih, List.enumFrom]

/-- C1 (amended): importing a parseable table whose rows all carry the
required columns REPLACES the store.  The resulting store consists of
exactly the imported records — one per row, in row order, with ids
`K1..KN` — independently of the prior store contents: line 90 of
klinik.py clears `kasus_list` before the loop, so previously retained
records are discarded and the final size is N, not (old size + N). -/
theorem import_replaces_store (kasus_list : List Kasus) (rows : List CsvRow)
    (h : ∀ r ∈ rows, r.valid) :
    BasisKasus.muatan_dari_csv (.table rows) kasus_list
      = (rows.enum.map (fun p => rowKasus p.1 p.2), .success) ∧
    (BasisKasus.muatan_dari_csv (.table rows) kasus_list).1.length = rows.length := by
  have hmain := muatanRows_of_valid rows 0 [] h
  refine ⟨by simpa [BasisKasus.muatan_dari_csv, List.enum] using hmain, ?_⟩
  simp [BasisKasus.muatan_dari_csv, hmain, List.enum]

/-- Witness for C1: one valid row imported over a one-record store. -/
theorem import_replaces_store_witness :
    BasisKasus.muatan_dari_csv
        (.table [⟨some "Dog", some "Labrador", some 2, some 20, some "Healthy",
          some "Vomiting", none, none, none, none⟩])
        [⟨"KOLD", "Kucing", "Persia", 3, 4, "Sehat", ["fever"], "Solusi lama"⟩]
      = ([rowKasus 0 ⟨some "Dog", some "Labrador", some 2, some 20, some "Healthy",
          some "Vomiting", none, none, none, none⟩], .success) ∧
    (BasisKasus.muatan_dari_csv
        (.table [⟨some "Dog", some "Labrador", some 2, some 20, some "Healthy",
          some "Vomiting", none, none, none, none⟩])
        [⟨"KOLD", "Kucing", "Persia", 3, 4, "Sehat", ["fever"], "Solusi lama"⟩]).1.length
      = 1 :=
  ⟨(import_replaces_store
      [⟨"KOLD", "Kucing", "Persia", 3, 4, "Sehat", ["fever"], "Solusi lama"⟩]
      [⟨some "Dog", some "Labrador", some 2, some 20, some "Healthy",
        some "Vomiting", none, none, none, none⟩] (by decide)).1,
   (import_replaces_store
      [⟨"KOLD", "Kucing", "Persia", 3, 4, "Sehat", ["fever"], "Solusi lama"⟩]
      [⟨some "Dog", some "Labrador", some 2, some 20, some "Healthy",
        some "Vomiting", none, none, none, none⟩] (by decide)).2⟩

/-- C1 counterexample: importing one valid row over a store holding one
retained record leaves a store of size 1 — not 2 — and the previously
retained record (id `KOLD`) is gone: the import is a replacement, not an
append. -/
theorem import_not_additive_cx :
    (BasisKasus.muatan_dari_csv
        (.table [⟨some "Dog", some "Labrador", some 2, some 20, some "Healthy",
          some "Vomiting", none, none, none, none⟩])
        [⟨"KOLD", "Kucing", "Persia", 3, 4, "Sehat", ["fever"], "Solusi lama"⟩]).1.length
      = 1 ∧
    "KOLD" ∉ ((BasisKasus.muatan_dari_csv
        (.table [⟨some "Dog", some "Labrador", some 2, some 20, some "Healthy",
          some "Vomiting", none, none, none, none⟩])
        [⟨"KOLD", "Kucing", "Persia", 3, 4, "Sehat", ["fever"], "Solusi lama"⟩]).1.map
          Kasus.id_kasus) ∧
    (1 : ℕ) ≠ 1 + 1 := by
  refine ⟨rfl, by decide, by decide⟩

/-- C2 (amended): when the source path is missing or the dataset fails
to parse, the import reports an error and returns with the in-memory
store exactly as it was.  When the table instead lacks a required
column, the operation raises an uncaught `KeyError` after clearing the
store, so the prior state is NOT preserved (see the counterexample). -/
theorem import_error_leaves_store_unchanged (kasus_list : List Kasus) :
    BasisKasus.muatan_dari_csv .missing kasus_list = (kasus_list, .errorReported) ∧
    BasisKasus.muatan_dari_csv .parseError kasus_list = (kasus_list, .errorReported) :=
  ⟨rfl, rfl⟩

/-- C2 counterexample: a table lacking the `AnimalName` column makes
the import raise `KeyError` (no graceful error report), and the store
after the call is empty — the record retained before the call is
erased. -/
theorem import_missing_column_not_atomic_cx :
    BasisKasus.muatan_dari_csv
        (.table [⟨none, some "Labrador", some 2, some 20, some "Healthy",
          some "Vomiting", none, none, none, none⟩])
        [⟨"KOLD", "Kucing", "Persia", 3, 4, "Sehat", ["fever"], "Solusi lama"⟩]
      = ([], .raised (.keyError "AnimalName")) ∧
    ([] : List Kasus) ≠ [⟨"KOLD", "Kucing", "Persia", 3, 4, "Sehat", ["fever"], "Solusi lama"⟩] :=
  ⟨rfl, fun h => List.cons_ne_nil _ _ h.symm⟩

/-- C5 (amended): retain sets the solution, assigns id
`"K" ++ (store size + 1)` and appends exactly one record, leaving every
prior record unchanged; the new id differs from every retained id
whenever no retained record already carries `"K" ++ (store size + 1)`
(true of the ids `K1..Kn` that import and retain themselves produce),
but not for arbitrary stores. -/
theorem retain_appends_one (kasus_list : List Kasus) (kasus_baru : Kasus)
    (solusi : String) :
    CBR.simpan_kasus_baru kasus_list kasus_baru solusi
      = kasus_list ++ [{ kasus_baru with
          solusi := solusi
          id_kasus := "K" ++ toString (kasus_list.length + 1) }] ∧
    (CBR.simpan_kasus_baru kasus_list kasus_baru solusi).length
      = kasus_list.length + 1 ∧
    (CBR.simpan_kasus_baru kasus_list kasus_baru solusi).take kasus_list.length
      = kasus_list ∧
    (("K" ++ toString (kasus_list.length + 1)) ∉ kasus_list.map Kasus.id_kasus →
      ∀ c ∈ kasus_list,
        ({ kasus_baru with
            solusi := solusi
            id_kasus := "K" ++ toString (kasus_list.length + 1) } : Kasus).id_kasus
          ≠ c.id_kasus) := by
  refine ⟨rfl, by simp [CBR.simpan_kasus_baru, BasisKasus.tambah_kasus], ?_, ?_⟩
  · simp [CBR.simpan_kasus_baru, BasisKasus.tambah_kasus, List.take_left]
  · intro hfresh c hc heq
    apply hfresh
    have hmem : c.id_kasus ∈ kasus_list.map Kasus.id_kasus :=
      List.mem_map_of_mem Kasus.id_kasus hc
    rw [← heq] at hmem
    exact hmem

/-- Witness for C5 on a store whose only id is `K1`. -/
theorem retain_appends_one_witness :
    (CBR.simpan_kasus_baru [⟨"K1", "Anjing", "Labrador", 2, 20, "Sehat", ["fever"], "s"⟩]
        ⟨"BARU", "Kucing", "Persia", 3, 4, "Normal", ["vomiting"], ""⟩ "Obat").length
      = 1 + 1 ∧
    ({ (⟨"BARU", "Kucing", "Persia", 3, 4, "Normal", ["vomiting"], ""⟩ : Kasus) with
        solusi := "Obat"
        id_kasus := "K" ++ toString
          (([⟨"K1", "Anjing", "Labrador", 2, 20, "Sehat", ["fever"], "s"⟩] :
            List Kasus).length + 1) } : Kasus).id_kasus
      ≠ (⟨"K1", "Anjing", "Labrador", 2, 20, "Sehat", ["fever"], "s"⟩ : Kasus).id_kasus :=
  ⟨(retain_appends_one [⟨"K1", "Anjing", "Labrador", 2, 20, "Sehat", ["fever"], "s"⟩]
      ⟨"BARU", "Kucing", "Persia", 3, 4, "Normal", ["vomiting"], ""⟩ "Obat").2.1,
   (retain_appends_one [⟨"K1", "Anjing", "Labrador", 2, 20, "Sehat", ["fever"], "s"⟩]
      ⟨"BARU", "Kucing", "Persia", 3, 4, "Normal", ["vomiting"], ""⟩ "Obat").2.2.2
      (by decide) ⟨"K1", "Anjing", "Labrador", 2, 20, "Sehat", ["fever"], "s"⟩
      (List.mem_cons_self _ _)⟩

/-- C5 counterexample: on a store whose single record already has id
`K2`, retain assigns the fresh record the id `K2` as well — the new id
is NOT distinct from every existing id, and the resulting id list is not
duplicate-free. -/
theorem retain_id_not_fresh_cx :
    (CBR.simpan_kasus_baru [⟨"K2", "Kucing", "Persia", 3, 4, "Sehat", ["fever"], "Solusi"⟩]
        ⟨"BARU", "Anjing", "Poodle", 2, 5, "Tidak ada", ["vomiting"], ""⟩ "Obat").map
        Kasus.id_kasus = ["K2", "K2"] ∧
    ¬ ((CBR.simpan_kasus_baru
        [⟨"K2", "Kucing", "Persia", 3, 4, "Sehat", ["fever"], "Solusi"⟩]
        ⟨"BARU", "Anjing", "Poodle", 2, 5, "Tidak ada", ["vomiting"], ""⟩ "Obat").map
        Kasus.id_kasus).Nodup := by
  refine ⟨rfl, by decide⟩

/-- C6 (amended): `simpan_kasus` installs no exception handler: a
successful write serialises the full encoded store, but a failing
durable write PROPAGATES to the caller (the call raises) instead of
being caught and reported via a success flag.  The in-memory store,
which `simpan_kasus` never modifies, stays usable in either case. -/
theorem persist_propagates_write_failure (kasus_list : List Kasus) (msg : String) :
    BasisKasus.simpan_kasus kasus_list .ok = .ok (kasus_list.map Kasus.ke_dict) ∧
    BasisKasus.simpan_kasus kasus_list (.fail msg) = .error msg :=
  ⟨rfl, rfl⟩

/-- C6 counterexample: a failing durable write makes `persist` raise —
the call evaluates to the propagated error, not to a caught-and-reported
failure value. -/
theorem persist_raises_cx :
    BasisKasus.simpan_kasus [] (.fail "disk penuh") = .error "disk penuh" ∧
    (BasisKasus.simpan_kasus [] (.fail "disk penuh")).isOk = false :=
  ⟨rfl, rfl⟩

/-- Lowercasing is the identity on a record whose symptom tokens are
already lowercase. -/
theorem normalizeKasus_of_normalized (kasus : Kasus)
    (h : ∀ g ∈ kasus.gejala, pyLower g = g) : normalizeKasus kasus = kasus := by
  have hmap : kasus.gejala.map pyLower = kasus.gejala := by
    calc kasus.gejala.map pyLower = kasus.gejala.map id :=
        List.map_congr_left h
      _ = kasus.gejala := List.map_id _
  simp only [normalizeKasus, hmap]

/-- C8 (amended): `muatan_kasus` never raises.  An absent durable file
leaves the store as it was (empty at the only call site) with no error;
an unparsable file yields the empty store SILENTLY — only other
open/decode failures produce the recoverable warning; a well-formed file
yields the decoded records.  In every branch each symptom token is
re-lowercased — not trimmed — and this is the identity on
already-lowercased tokens. -/
theorem load_outcomes :
    (∀ prior, BasisKasus.muatan_kasus .absent prior = (prior.map normalizeKasus, none)) ∧
    BasisKasus.muatan_kasus .absent [] = ([], none) ∧
    BasisKasus.muatan_kasus .malformed [] = ([], none) ∧
    (∀ msg, BasisKasus.muatan_kasus (.otherError msg) []
        = ([], some ("File JSON tidak valid: " ++ msg))) ∧
    (∀ items prior, BasisKasus.muatan_kasus (.ok items) prior
        = ((items.map Kasus.dari_dict).map normalizeKasus, none)) ∧
    (∀ kasus, (∀ g ∈ kasus.gejala, pyLower g = g) → normalizeKasus kasus = kasus) :=
  ⟨fun _ => rfl, rfl, rfl, fun _ => rfl, fun _ _ => rfl, normalizeKasus_of_normalized⟩

/-- Witness for C8 at concrete inputs. -/
theorem load_outcomes_witness :
    BasisKasus.muatan_kasus .absent
        [⟨"K1", "Anjing", "Labrador", 2, 20, "Sehat", ["fever"], "s"⟩]
      = ([⟨"K1", "Anjing", "Labrador", 2, 20, "Sehat", ["fever"], "s"⟩].map normalizeKasus,
         none) ∧
    normalizeKasus ⟨"K1", "Anjing", "Labrador", 2, 20, "Sehat", ["fever"], "s"⟩
      = ⟨"K1", "Anjing", "Labrador", 2, 20, "Sehat", ["fever"], "s"⟩ :=
  ⟨load_outcomes.1 [⟨"K1", "Anjing", "Labrador", 2, 20, "Sehat", ["fever"], "s"⟩],
   load_outcomes.2.2.2.2.2 ⟨"K1", "Anjing", "Labrador", 2, 20, "Sehat", ["fever"], "s"⟩
     (by decide)⟩

/-- C8 counterexample: an unparsable durable file yields the empty store
with NO warning (the `JSONDecodeError` branch of klinik.py lines 146-148
is silent), and a loaded symptom token keeps its surrounding whitespace:
`"  Fever "` is stored as `"  fever "`, which is not trimmed. -/
theorem load_not_as_specified_cx :
    (BasisKasus.muatan_kasus .malformed
        [⟨"KOLD", "Kucing", "Persia", 3, 4, "Sehat", ["fever"], "s"⟩]).2 = none ∧
    ((BasisKasus.muatan_kasus
        (.ok [⟨"K1", "Anjing", "Labrador", 2, 5, "Sehat", ["  Fever "], "Solusi"⟩])
        []).1.map Kasus.gejala) = [["  fever "]] ∧
    pyStrip "  fever " ≠ "  fever " := by
  refine ⟨rfl, rfl, by decide⟩

/-- C9: decoding inverts encoding on every record, and persisting a
store whose symptom tokens are normalised (lowercase) and then loading
the written content yields the store back, field for field, with no
warning. -/
theorem persistence_round_trip :
    (∀ x : Kasus, Kasus.dari_dict (Kasus.ke_dict x) = x) ∧
    (∀ X : List Kasus, (∀ k ∈ X, ∀ g ∈ k.gejala, pyLower g = g) →
      BasisKasus.simpan_kasus X .ok = .ok (X.map Kasus.ke_dict) ∧
      BasisKasus.muatan_kasus (.ok (X.map Kasus.ke_dict)) [] = (X, none)) := by
  refine ⟨fun x => rfl, fun X h => ⟨rfl, ?_⟩⟩
  have hmap : ((X.map Kasus.ke_dict).map Kasus.dari_dict).map normalizeKasus = X := by
    simp only [List.map_map]
    calc X.map (normalizeKasus ∘ Kasus.dari_dict ∘ Kasus.ke_dict)
        = X.map id :=
          List.map_congr_left (fun k hk => normalizeKasus_of_normalized k (h k hk))
      _ = X := List.map_id _
  simp only [BasisKasus.muatan_kasus, hmap]

/-- Witness for C9 at a concrete normalised store. -/
theorem persistence_round_trip_witness :
    Kasus.dari_dict (Kasus.ke_dict
        ⟨"K1", "Anjing", "Labrador", 2, 20, "Sehat", ["fever", "vomiting"], "s"⟩)
      = ⟨"K1", "Anjing", "Labrador", 2, 20, "Sehat", ["fever", "vomiting"], "s"⟩ ∧
    BasisKasus.muatan_kasus
        (.ok ([⟨"K1", "Anjing", "Labrador", 2, 20, "Sehat", ["fever", "vomiting"], "s"⟩].map
          Kasus.ke_dict)) []
      = ([⟨"K1", "Anjing", "Labrador", 2, 20, "Sehat", ["fever", "vomiting"], "s"⟩], none) :=
  ⟨persistence_round_trip.1
      ⟨"K1", "Anjing", "Labrador", 2, 20, "Sehat", ["fever", "vomiting"], "s"⟩,
   (persistence_round_trip.2
      [⟨"K1", "Anjing", "Labrador", 2, 20, "Sehat", ["fever", "vomiting"], "s"⟩]
      (by decide)).2⟩

end Klinik
